import Mathlib

/-!
Formal model of the workflow_automation repository.

The model is a shallow embedding of the four source processes:
  - `processor.py`: the ingestion process (Service Bus receive loop,
    Cosmos DB store, SQL workflow-record insert);
  - `status_logging_agent.py`: the `log_step` and `update_workflow_status`
    capabilities over the SQL tables;
  - `commercial_loan_agent.py`: the `validate_application`,
    `get_credit_score` capabilities and the agent CLI / transport selection;
  - the orchestrating controller, which the repository implements only as
    natural-language instructions to an LLM agent (`orchestrator_agent.py`);
    its step loop is modelled from the specification.

External effects (database writes, Cosmos writes, LLM calls, random draws)
are modelled by explicit outcome parameters; each Lean function returns the
rows/documents it writes together with its Python return value.
-/

namespace WorkflowAutomation

/-- Row of the SQL table `workflow(id, status, current_step, created_date)`
(see the INSERT in `processor.py` and the UPDATE in
`status_logging_agent.py`). -/
structure WorkflowRow where
  id : String
  status : String
  current_step : Int
  created_date : String
  deriving DecidableEq, Repr

/-- Row of the SQL table
`workflow_step_status(step, workflow_id, status_comment, update_date_time, status)`
(see the INSERT in `StatusLoggingPlugin.log_step`). -/
structure StepStatusRow where
  step : Int
  workflow_id : String
  status_comment : String
  update_date_time : String
  status : String
  deriving DecidableEq, Repr

/-- Payload stored under the `messageData` field of a Cosmos document:
either the parsed JSON message, or — on `json.JSONDecodeError` — the raw
message text wrapped as a dictionary with single key `rawMessage`
(`processor.py`, `process_message`). -/
inductive MessageData where
  | structured (data : String)
  | rawWrapped (text : String)
  deriving DecidableEq, Repr

/-- Document written by `ServiceBusHelper.store_in_cosmosdb`: a fresh GUID is
used both as `id` and as `partitionKey`. -/
structure CosmosDoc where
  id : String
  partitionKey : String
  messageData : MessageData
  receivedTimestamp : String
  deriving DecidableEq, Repr

/-- A queue message as seen by `process_message`: `json.loads(str(message))`
either succeeds with a structured payload or raises `JSONDecodeError`. -/
inductive QueueMessage where
  | jsonMsg (data : String)
  | rawText (text : String)
  deriving DecidableEq, Repr

/-- The environment of one `process_message` call: whether the Cosmos
`create_item` call succeeds, whether the SQL INSERT succeeds, the GUID
produced by `uuid.uuid4()`, and the current timestamp. -/
structure IngestEnv where
  cosmosOk : Bool
  sqlOk : Bool
  freshId : String
  now : String
  deriving DecidableEq, Repr

/-- `ServiceBusHelper.store_in_cosmosdb`: on success stores one document
keyed by the fresh GUID and returns that GUID; on any exception the error is
caught, logged, and `None` is returned (and nothing is stored). Result is
(returned doc id, documents written). -/
def store_in_cosmosdb (env : IngestEnv) (message_data : MessageData) :
    Option String × List CosmosDoc :=
  if env.cosmosOk then
    (some env.freshId, [⟨env.freshId, env.freshId, message_data, env.now⟩])
  else
    (none, [])

/-- `ServiceBusHelper.insert_workflow_record`: inserts
`(workflow_id, "Initial", 1, created_date)` into the `workflow` table and
returns `True`; on any exception the error is caught and logged and `False`
is returned (nothing inserted). Result is (rows inserted, return value). -/
def insert_workflow_record (env : IngestEnv) (workflow_id : String) :
    List WorkflowRow × Bool :=
  if env.sqlOk then
    ([⟨workflow_id, "Initial", 1, env.now⟩], true)
  else
    ([], false)

/-- Rows and documents written while handling one queue message. -/
structure IngestResult where
  docs : List CosmosDoc
  rows : List WorkflowRow
  deriving DecidableEq, Repr

/-- `ServiceBusHelper.process_message`: parse the message as JSON; on
success store it in Cosmos and — when a truthy doc id came back (Python
string truthiness: non-`None` and non-empty) — insert a workflow record for
it. On `JSONDecodeError` the raw text is wrapped as
`{"rawMessage": text}` and stored, and no workflow record is inserted.
Every exception arising from the storage helpers is caught inside those
helpers, so this function always returns normally. -/
def process_message (env : IngestEnv) (msg : QueueMessage) : IngestResult :=
  match msg with
  | .jsonMsg data =>
      let stored := store_in_cosmosdb env (.structured data)
      match stored.1 with
      | some wid =>
          if wid = "" then
            ⟨stored.2, []⟩
          else
            ⟨stored.2, (insert_workflow_record env wid).1⟩
      | none => ⟨stored.2, []⟩
  | .rawText text =>
      let stored := store_in_cosmosdb env (.rawWrapped text)
      ⟨stored.2, []⟩

/-- Body of the `async for` loop in `ServiceBusHelper.start_listening`: the
message is processed and then `receiver.complete_message` is awaited. The
`except` clause around the pair is reachable only if `process_message`
raises, and every failure path inside `process_message` is caught there
(the JSON decode handler and the blanket handlers inside the two storage
helpers), so acknowledgement is reached unconditionally. Result is
(effects of processing, whether the message was completed/acknowledged). -/
def start_listening_step (env : IngestEnv) (msg : QueueMessage) :
    IngestResult × Bool :=
  (process_message env msg, true)

/-- Outcome of one attempt to reach the SQL database from the status
logging plugin: either the connection/statement succeeds, or some exception
is raised (and caught by the plugin). -/
inductive DbOutcome where
  | ok
  | err (msg : String)
  deriving DecidableEq, Repr

/-- Effect of the SQL statement
`UPDATE workflow SET current_step = ?, status = ? WHERE id = ?` on the
`workflow` table. -/
def sqlUpdateWorkflow (table : List WorkflowRow) (current_step : Int)
    (status workflow_id : String) : List WorkflowRow :=
  table.map fun r =>
    if r.id = workflow_id then
      ⟨r.id, status, current_step, r.created_date⟩
    else r

/-- `StatusLoggingPlugin.log_step`: inserts one row into
`workflow_step_status`; any exception is caught and logged, and the
function returns `True` in every case. Result is
(resulting step-status table, return value). -/
def log_step (db : DbOutcome) (table : List StepStatusRow)
    (step_status_comment : String) (step : Int)
    (workflow_id status now : String) : List StepStatusRow × Bool :=
  match db with
  | .ok => (table ++ [⟨step, workflow_id, step_status_comment, now, status⟩], true)
  | .err _ => (table, true)

/-- `StatusLoggingPlugin.update_workflow_status`: runs the unconditional
UPDATE above; any exception is caught and logged, and the function returns
`True` in every case. Result is (resulting workflow table, return value). -/
def update_workflow_status (db : DbOutcome) (table : List WorkflowRow)
    (current_step : Int) (workflow_id status : String) :
    List WorkflowRow × Bool :=
  match db with
  | .ok => (sqlUpdateWorkflow table current_step status workflow_id, true)
  | .err _ => (table, true)

/-- Python `random.randint(lo, hi)`: a value in the inclusive range
`[lo, hi]`, here determined by an abstract seed. -/
def randint (lo hi seed : Nat) : Nat :=
  lo + seed % (hi - lo + 1)

/-- `CommercialLoanPlugin.get_credit_score`: ignores the application data
and returns `random.randint(790, 840)`. -/
def get_credit_score (seed : Nat) : Nat :=
  randint 790 840 seed

/-- Outcome of the LLM call inside `validate_application`: either a chat
response content string, or an exception. -/
def LlmOutcome := Except String String

/-- The `validation_result` variable in
`CommercialLoanPlugin.validate_application`: the LLM response content on
success, and the literal `"VALID"` when the LLM call raised and the
`except` fallback ran. -/
def validation_result_of (llm : Except String String) : String :=
  match llm with
  | .ok content => content
  | .error _ => "VALID"

/-- The structured content of the `final_result` string returned by
`validate_application`. -/
structure FinalValidation where
  application_data : String
  validation_result : String
  criteria_checked : String
  deriving DecidableEq, Repr

/-- `CommercialLoanPlugin.validate_application`: builds the final result
from the application data, the validation outcome, and the fixed criteria
line. -/
def validate_application (application_data : String)
    (llm : Except String String) : FinalValidation :=
  ⟨application_data, validation_result_of llm, "Name, Address, Zip Code, Email"⟩

/-- Arguments produced by `parse_arguments` in both agent processes:
`--transport` with choices `sse`/`stdio` defaulting to `stdio`, and
`--port` defaulting to `None` and never marked required. -/
structure Args where
  transport : String
  port : Option Int
  deriving DecidableEq, Repr

/-- `parse_arguments`: parsing fails (argparse error) only when the given
transport is not one of the two choices; a missing `--port` is accepted for
every transport. -/
def parse_arguments (transport : Option String) (port : Option Int) :
    Option Args :=
  let t := transport.getD "stdio"
  if t = "sse" ∨ t = "stdio" then some ⟨t, port⟩ else none

/-- What the `run` coroutine of an agent process ends up doing after
building the MCP server. -/
inductive ServerAction where
  | sseServer (port : Int)
  | stdioServer
  | noServer
  deriving DecidableEq, Repr

/-- The transport dispatch in `run` (identical in
`commercial_loan_agent.py` and `status_logging_agent.py`):
`if transport == "sse" and port is not None: ... elif transport == "stdio":
... ` — and no `else` branch, so `sse` with no port starts nothing. -/
def run (transport : String) (port : Option Int) : ServerAction :=
  if transport = "sse" ∧ port.isSome then
    .sseServer (port.getD 0)
  else if transport = "stdio" then
    .stdioServer
  else
    .noServer

/-- Outcome of one step's capability call as seen by the controller. -/
inductive StepOutcome where
  | success
  | failure
  deriving DecidableEq, Repr

/-- A step-log entry as the controller emits it (workflow id, 1-based step
index, outcome status). -/
structure StepLogEntry where
  workflow_id : String
  step : Nat
  status : String
  deriving DecidableEq, Repr

/-- The single terminal workflow update the controller performs. -/
structure TerminalUpdate where
  workflow_id : String
  status : String
  current_step : Nat
  deriving DecidableEq, Repr

/-- Modelled from the spec: the step loop of the Orchestrating Controller
(§4.2), which the repository implements only as natural-language LLM
instructions in `orchestrator_agent.py` and not as executable code.
Starting at index `i`, execute the remaining steps in order; after every
attempted step append one log entry; stop at the first failure. Returns
(log entries, (index of last executed step, whether all executed steps
succeeded)). -/
def runFrom (wid : String) (i : Nat) : List StepOutcome →
    List StepLogEntry × Nat × Bool
  | [] => ([], i - 1, true)
  | .success :: rest =>
      let r := runFrom wid (i + 1) rest
      (⟨wid, i, "Successful"⟩ :: r.1, r.2)
  | .failure :: _ => ([⟨wid, i, "Failed"⟩], i, false)

/-- Modelled from the spec: `run_workflow` (§4.2) — run the steps from
index 1 and then perform exactly one terminal update: `Completed` at the
last executed step if every step succeeded, `Failed` at the failing step
otherwise. -/
def run_workflow (wid : String) (outcomes : List StepOutcome) :
    List StepLogEntry × TerminalUpdate :=
  let r := runFrom wid 1 outcomes
  (r.1, ⟨wid, if r.2.2 then "Completed" else "Failed", r.2.1⟩)

/-! Theorems settling the claims. -/

/-- Claim C1 counterexample: a queue message whose Cosmos write succeeds but
whose workflow-record insert fails (no workflow row is created), yet the
message is still acknowledged — refuting "if either write fails, the
message is not acknowledged". -/
theorem C1_counterexample :
    (start_listening_step ⟨true, false, "doc-1", "2025-01-01"⟩ (.jsonMsg "payload")).1.rows = [] ∧
    (start_listening_step ⟨true, false, "doc-1", "2025-01-01"⟩ (.jsonMsg "payload")).2 = true :=
  ⟨rfl, rfl⟩

/-- Claim C1 (amended): every processed queue message is acknowledged,
regardless of whether the document-store write or the workflow-record
insert succeeded — all storage failures are caught inside
`process_message`, so `complete_message` is always reached. -/
theorem C1_ack_unconditional (env : IngestEnv) (msg : QueueMessage) :
    (start_listening_step env msg).2 = true := rfl

/-- Claim C3 counterexample: a non-JSON queue message is stored wrapped as
a raw payload, but zero workflow records are created for it — refuting
"creates exactly one WorkflowRecord". -/
theorem C3_counterexample :
    process_message ⟨true, true, "doc-2", "2025-01-02"⟩ (.rawText "not json") =
      ⟨[⟨"doc-2", "doc-2", .rawWrapped "not json", "2025-01-02"⟩], []⟩ := rfl

/-- Claim C3 (amended): a queue message that fails JSON parsing is stored
(when the document-store write succeeds) wrapped as a raw payload under a
fresh identifier, and no WorkflowRecord is created for it. -/
theorem C3_raw_stored_without_record (env : IngestEnv) (text : String)
    (h : env.cosmosOk = true) :
    process_message env (.rawText text) =
      ⟨[⟨env.freshId, env.freshId, .rawWrapped text, env.now⟩], []⟩ := by
  simp [process_message, store_in_cosmosdb, h]

/-- Witness for `C3_raw_stored_without_record` at a concrete environment
and message. -/
theorem C3_raw_stored_without_record_witness :
    (⟨true, true, "d", "t"⟩ : IngestEnv).cosmosOk = true ∧
    process_message ⟨true, true, "d", "t"⟩ (.rawText "x") =
      ⟨[⟨"d", "d", .rawWrapped "x", "t"⟩], []⟩ :=
  ⟨rfl, C3_raw_stored_without_record ⟨true, true, "d", "t"⟩ "x" rfl⟩

/-- Claim C6 counterexample: a (non-JSON) message successfully stored in the
document store for which no WorkflowRecord at all is created — refuting
"for every message successfully stored ... creates a WorkflowRecord". -/
theorem C6_counterexample :
    (process_message ⟨true, true, "doc-3", "2025-01-03"⟩ (.rawText "hello")).docs =
      [⟨"doc-3", "doc-3", .rawWrapped "hello", "2025-01-03"⟩] ∧
    (process_message ⟨true, true, "doc-3", "2025-01-03"⟩ (.rawText "hello")).rows = [] :=
  ⟨rfl, rfl⟩

/-- Claim C6 (amended): for every JSON-parseable message whose
document-store write succeeds (with a non-empty fresh identifier), exactly
one WorkflowRecord insert is attempted, keyed by the store-generated
identifier with status `Initial` and `current_step = 1`; the row exists
exactly when that SQL insert succeeds. -/
theorem C6_json_record_keyed_by_fresh_id (env : IngestEnv) (data : String)
    (hc : env.cosmosOk = true) (hid : env.freshId ≠ "") :
    (process_message env (.jsonMsg data)).rows =
      (if env.sqlOk then [⟨env.freshId, "Initial", 1, env.now⟩] else []) := by
  cases hs : env.sqlOk <;>
    simp [process_message, store_in_cosmosdb, insert_workflow_record, hc, hid, hs]

/-- Witness for `C6_json_record_keyed_by_fresh_id` at a concrete
environment and message. -/
theorem C6_json_record_keyed_by_fresh_id_witness :
    (⟨true, true, "doc-w", "tw"⟩ : IngestEnv).cosmosOk = true ∧
    (⟨true, true, "doc-w", "tw"⟩ : IngestEnv).freshId ≠ "" ∧
    (process_message ⟨true, true, "doc-w", "tw"⟩ (.jsonMsg "pw")).rows =
      [⟨"doc-w", "Initial", 1, "tw"⟩] :=
  ⟨rfl, by decide,
    C6_json_record_keyed_by_fresh_id ⟨true, true, "doc-w", "tw"⟩ "pw" rfl (by decide)⟩

/-- Claim C4 counterexample: a workflow record in terminal status
`Completed` is changed to `Failed` (and its `current_step` moved) by a
subsequent `update_workflow_status` call — refuting "terminal states have
no outgoing transitions". -/
theorem C4_counterexample :
    (update_workflow_status .ok [⟨"W1", "Completed", 3, "2025-01-01"⟩] 1 "W1" "Failed").1 =
      [⟨"W1", "Failed", 1, "2025-01-01"⟩] := rfl

/-- Claim C4 (amended): `update_workflow_status` overwrites the status of
every row whose id matches, unconditionally — it never inspects the
existing (possibly terminal) status, so terminal states are not enforced. -/
theorem C4_update_overwrites_terminal (table : List WorkflowRow)
    (current_step : Int) (workflow_id status : String) (r : WorkflowRow)
    (hr : r ∈ (update_workflow_status .ok table current_step workflow_id status).1)
    (hid : r.id = workflow_id) :
    r.status = status := by
  unfold update_workflow_status sqlUpdateWorkflow at hr
  simp only [List.mem_map] at hr
  obtain ⟨s, _, hs⟩ := hr
  by_cases h : s.id = workflow_id
  · rw [if_pos h] at hs
    subst hs
    rfl
  · rw [if_neg h] at hs
    subst hs
    exact absurd hid h

/-- Witness for `C4_update_overwrites_terminal` at a concrete table. -/
theorem C4_update_overwrites_terminal_witness :
    (⟨"W9", "Failed", 2, "d9"⟩ : WorkflowRow) ∈
      (update_workflow_status .ok [⟨"W9", "Completed", 7, "d9"⟩] 2 "W9" "Failed").1 ∧
    (⟨"W9", "Failed", 2, "d9"⟩ : WorkflowRow).id = "W9" ∧
    (⟨"W9", "Failed", 2, "d9"⟩ : WorkflowRow).status = "Failed" :=
  ⟨by decide, rfl,
    C4_update_overwrites_terminal [⟨"W9", "Completed", 7, "d9"⟩] 2 "W9" "Failed"
      ⟨"W9", "Failed", 2, "d9"⟩ (by decide) rfl⟩

/-- Claim C5 counterexample: a workflow record with `current_step = 5` is
updated to `current_step = 2` — `current_step` decreased, refuting
monotonic non-decrease. -/
theorem C5_counterexample :
    (update_workflow_status .ok [⟨"W2", "Initial", 5, "2025-02-02"⟩] 2 "W2" "InProgress").1 =
      [⟨"W2", "InProgress", 2, "2025-02-02"⟩] := rfl

/-- Claim C5 (amended): `update_workflow_status` sets `current_step` of
every matching row to exactly the supplied value, with no comparison
against the previous value — so `current_step` may decrease. -/
theorem C5_update_sets_step_unconditionally (table : List WorkflowRow)
    (current_step : Int) (workflow_id status : String) (r : WorkflowRow)
    (hr : r ∈ (update_workflow_status .ok table current_step workflow_id status).1)
    (hid : r.id = workflow_id) :
    r.current_step = current_step := by
  unfold update_workflow_status sqlUpdateWorkflow at hr
  simp only [List.mem_map] at hr
  obtain ⟨s, _, hs⟩ := hr
  by_cases h : s.id = workflow_id
  · rw [if_pos h] at hs
    subst hs
    rfl
  · rw [if_neg h] at hs
    subst hs
    exact absurd hid h

/-- Witness for `C5_update_sets_step_unconditionally` at a concrete table
where the step decreases from 9 to 3. -/
theorem C5_update_sets_step_unconditionally_witness :
    (⟨"W8", "Initial", 3, "d8"⟩ : WorkflowRow) ∈
      (update_workflow_status .ok [⟨"W8", "Initial", 9, "d8"⟩] 3 "W8" "Initial").1 ∧
    (⟨"W8", "Initial", 3, "d8"⟩ : WorkflowRow).id = "W8" ∧
    (⟨"W8", "Initial", 3, "d8"⟩ : WorkflowRow).current_step = 3 :=
  ⟨by decide, rfl,
    C5_update_sets_step_unconditionally [⟨"W8", "Initial", 9, "d8"⟩] 3 "W8" "Initial"
      ⟨"W8", "Initial", 3, "d8"⟩ (by decide) rfl⟩

/-- Claim C7: `get_credit_score` always returns a value in the documented
plausible credit-score range 300–850 (it draws uniformly from 790–840). -/
theorem C7_credit_score_in_range (seed : Nat) :
    300 ≤ get_credit_score seed ∧ get_credit_score seed ≤ 850 := by
  have h : get_credit_score seed = 790 + seed % 51 := rfl
  rw [h]
  omega

/-- Claim C8 counterexample: `--transport sse` with no `--port` is accepted
by the argument parser (not rejected), and `run` then starts no server at
all — refuting "starting with sse transport and no port is rejected". -/
theorem C8_counterexample :
    parse_arguments (some "sse") none = some ⟨"sse", none⟩ ∧
    run "sse" none = ServerAction.noServer :=
  ⟨rfl, rfl⟩

/-- Claim C8 (amended): `--port` is not enforced for sse transport: the CLI
accepts sse without a port and `run` then silently starts no server; with a
port, the SSE server is started on it; with the default stdio transport no
port is needed and the stdio server starts. -/
theorem C8_port_not_required :
    parse_arguments (some "sse") none = some ⟨"sse", none⟩ ∧
    run "sse" none = ServerAction.noServer ∧
    (∀ p : Int, run "sse" (some p) = ServerAction.sseServer p) ∧
    parse_arguments none none = some ⟨"stdio", none⟩ ∧
    (∀ p : Option Int, run "stdio" p = ServerAction.stdioServer) :=
  ⟨rfl, rfl, fun _ => rfl, rfl, fun p => by cases p <;> rfl⟩

/-- Claim C9: `log_step` and `update_workflow_status` return `True` whether
the database write succeeded or raised — the exception is swallowed, so the
return value cannot distinguish a failed write from a successful one. -/
theorem C9_capabilities_return_true (db : DbOutcome) (table : List StepStatusRow)
    (comment : String) (step : Int) (workflow_id status now : String)
    (wtable : List WorkflowRow) (current_step : Int) (wid2 status2 : String) :
    (log_step db table comment step workflow_id status now).2 = true ∧
    (update_workflow_status db wtable current_step wid2 status2).2 = true := by
  cases db <;> exact ⟨rfl, rfl⟩

/-- Claim C10: when the LLM call inside `validate_application` raises, the
fallback sets the validation outcome to the literal `"VALID"`, for every
application input. -/
theorem C10_llm_failure_reports_valid (data e : String) :
    (validate_application data (.error e)).validation_result = "VALID" := rfl

/-- Helper for C2: running the controller loop from index `i` over `k`
successes followed by a failure logs steps `i..i+k` in order (the first `k`
successful, the last failed) and stops with last index `i + k` and overall
failure; the steps after the failure are never examined. -/
theorem runFrom_replicate_succ_fail (wid : String) (k : Nat) (rest : List StepOutcome) :
    ∀ i, runFrom wid i (List.replicate k .success ++ .failure :: rest) =
      (((List.range' i k).map fun j => (⟨wid, j, "Successful"⟩ : StepLogEntry)) ++
        [⟨wid, i + k, "Failed"⟩], (i + k, false)) := by
  induction k with
  | zero => intro i; simp [runFrom]
  | succ k ih =>
      intro i
      have e : i + (k + 1) = i + 1 + k := by omega
      rw [e]
      simp only [List.replicate_succ, List.cons_append, List.append_eq, runFrom,
        ih (i + 1), List.range'_succ, List.map_cons]

/-- Claim C2 (spec-modelled controller): for a workflow whose first `k`
steps succeed and whose step `k + 1` fails, the controller writes exactly
`k + 1` log entries — steps `1..k` `Successful` and step `k + 1` `Failed`,
in step order with no step repeated and none beyond `k + 1` attempted — and
performs the single terminal update `status = Failed, current_step = k + 1`. -/
theorem C2_fail_at_step_k_plus_one (wid : String) (k : Nat) (rest : List StepOutcome) :
    run_workflow wid (List.replicate k .success ++ .failure :: rest) =
      (((List.range' 1 k).map fun j => (⟨wid, j, "Successful"⟩ : StepLogEntry)) ++
        [⟨wid, k + 1, "Failed"⟩],
       ⟨wid, "Failed", k + 1⟩) ∧
    (run_workflow wid (List.replicate k .success ++ .failure :: rest)).1.map StepLogEntry.step =
      List.range' 1 (k + 1) := by
  have h := runFrom_replicate_succ_fail wid k rest 1
  have hmain : run_workflow wid (List.replicate k .success ++ .failure :: rest) =
      (((List.range' 1 k).map fun j => (⟨wid, j, "Successful"⟩ : StepLogEntry)) ++
        [⟨wid, k + 1, "Failed"⟩],
       ⟨wid, "Failed", k + 1⟩) := by
    simp [run_workflow, h, Nat.add_comm 1 k]
  refine ⟨hmain, ?_⟩
  rw [hmain]
  have hcomp : (StepLogEntry.step ∘ fun j => (⟨wid, j, "Successful"⟩ : StepLogEntry)) = id := rfl
  simp [List.map_map, hcomp, List.range'_1_concat, Nat.add_comm 1 k]

end WorkflowAutomation
